import Mathlib

/-!
Shallow embedding of the tab/view router and the currency-conversion utility of
the budget-manager-cloud frontend (src/unnamed/part_004, src/unnamed/part_001,
src/static/plaid_app.js), together with theorems settling the specification
claims about them.
-/

namespace BudgetManager

/-! ### JavaScript string primitives -/

/-- Boolean prefix test mirroring JavaScript `path.startsWith(route)`. -/
def jsStartsWith (s p : String) : Bool :=
  p.toList.isPrefixOf s.toList

/-- Boolean substring test mirroring JavaScript `pathname.includes(sub)`. -/
def jsIncludes (s sub : String) : Bool :=
  decide (sub.toList <:+: s.toList)

/-! ### URL router (part_004 lines 4-81) -/

/-- Base-path detection performed in the `URLRouter` constructor (part_004 lines
7-9): the ternary `window.location.pathname.includes('/budget-manager-cloud/')
? '/budget-manager-cloud' : ''`. -/
def detectBasePath (pathname : String) : String :=
  if jsIncludes pathname "/budget-manager-cloud/" then "/budget-manager-cloud" else ""

/-- Route table built in the `URLRouter` constructor (part_004 lines 11-16), in
insertion order, mapping URL path to tab name. -/
def routes (basePath : String) : List (String × String) :=
  [(basePath ++ "/", "dashboard"),
   (basePath ++ "/banks", "banks"),
   (basePath ++ "/transactions", "transactions"),
   (basePath ++ "/advisor", "advisor")]

/-- Tab-to-path map of `URLRouter.navigateToTab` (part_004 lines 68-73). -/
def routeMap (basePath : String) : List (String × String) :=
  [("dashboard", basePath ++ "/"),
   ("banks", basePath ++ "/banks"),
   ("transactions", basePath ++ "/transactions"),
   ("advisor", basePath ++ "/advisor")]

/-- Exact key lookup in a JavaScript object represented as an association list
of its own enumerable properties in insertion order (keys are pairwise
distinct in every object modelled here). -/
def jsLookup {α : Type} (key : String) : List (String × α) → Option α
  | [] => none
  | (k, v) :: rest => if key = k then some v else jsLookup key rest

/-- History push performed by `URLRouter.navigateToTab` (part_004 lines 67-80):
the path handed to `history.pushState`, or `none` when the tab is absent from
the map (in which case no push happens). -/
def navigateToTabPush (basePath tabName : String) : Option String :=
  jsLookup tabName (routeMap basePath)

/-- The fallback loop of `URLRouter.handleRoute` (part_004 lines 42-47): walk
`Object.entries(this.routes)` in insertion order and take the first route of
which the path is an extension (`path.startsWith(route)`), breaking there. -/
def routeLoop (path : String) : List (String × String) → Option String
  | [] => none
  | (route, tab) :: rest =>
    if jsStartsWith path route then some tab else routeLoop path rest

/-- Path-resolution logic of `URLRouter.handleRoute` (part_004 lines 33-53):
exact lookup in the route table first; otherwise the first route, in insertion
order, satisfying `path.startsWith(route)`; otherwise the literal fallback
`"dashboard"`. Tab names are nonempty strings, so the JavaScript truthiness
test `!tabName` coincides with the lookup returning nothing. -/
def handleRouteResolve (rs : List (String × String)) (path : String) : String :=
  match jsLookup path rs with
  | some tab => tab
  | none =>
    match routeLoop path rs with
    | some tab => tab
    | none => "dashboard"

/-- Resolution as the specification words it, for comparison with
`handleRouteResolve`: exact match first, then the longest-prefix match among
the registered routes, then the default view. -/
def longestPrefixResolve (rs : List (String × String)) (path : String) : String :=
  match jsLookup path rs with
  | some tab => tab
  | none =>
    match rs.filter (fun rt => jsStartsWith path rt.1) with
    | [] => "dashboard"
    | c :: cs =>
      (cs.foldl (fun best rt => if best.1.length < rt.1.length then rt else best) c).2

/-! ### View activation (part_004 lines 188-226) -/

/-- Modelled from the spec: the HTML page defining the panel elements is not
among the source files. Spec section 3 fixes a closed set of views, each with
its own panel, and sections 2 and 4.1 name the views dashboard, banks,
transactions, advisor (with accounts and reports also handled by `showTab`).
The document therefore holds one element id per known view. -/
def viewPanelIds : List String :=
  ["dashboard", "banks", "accounts", "transactions", "reports", "advisor"]

/-- Effect model of `showTab` (part_004 lines 188-226). `domIds` lists the
element ids present in the document and `routerDefined` models the guard
`typeof router !== 'undefined'`. When `document.getElementById(tabName)` is
`null`, the immediate `.classList.add('active')` throws a TypeError, modelled
as `Except.error`; otherwise the result is `Except.ok push` where `push` is
the path pushed into history via `router.navigateToTab` (performed whenever
the router exists and the tab is not `"dashboard"`), or `none`. -/
def showTab (domIds : List String) (routerDefined : Bool) (basePath tabName : String) :
    Except String (Option String) :=
  if domIds.contains tabName then
    if routerDefined && tabName != "dashboard" then
      Except.ok (navigateToTabPush basePath tabName)
    else
      Except.ok none
  else
    Except.error "TypeError: cannot read classList of null"

/-- Combined effect of `URLRouter.handleRoute` (part_004 lines 33-64): resolve
the path, then invoke the existing `showTab` with the resolved tab name. -/
def handleRouteEffect (domIds : List String) (routerDefined : Bool)
    (basePath path : String) : Except String (Option String) :=
  showTab domIds routerDefined basePath (handleRouteResolve (routes basePath) path)

/-! ### Currency conversion (part_004 lines 1277-1406, plaid_app.js 355-381) -/

/-- Global rate table `customRates` (part_004 lines 1278-1284): one rate per
supported currency code, each expressed against the USD base. -/
structure Rates where
  usd : ℚ
  cad : ℚ
  eur : ℚ
  uah : ℚ
  rub : ℚ
deriving DecidableEq, Repr

/-- Initial hardcoded value of `customRates` (part_004 lines 1278-1284). -/
def initialCustomRates : Rates :=
  { usd := 1, cad := 1.35, eur := 0.85, uah := 41.0, rub := 83.0 }

/-- View of the rate table as the string-keyed object the converters index. -/
def ratesTable (r : Rates) : List (String × ℚ) :=
  [("USD", r.usd), ("CAD", r.cad), ("EUR", r.eur), ("UAH", r.uah), ("RUB", r.rub)]

/-- Outcome of the `fetch` in `loadExchangeRates` (part_004 lines 640-703). A
thrown network error, a non-ok HTTP status, and a response without a `rates`
object all land in the `catch` block; `ok` carries, for each currency code the
function reads, the value of `data.rates.<code>` when present (`none` models an
absent property). -/
inductive FetchResult where
  | networkError : FetchResult
  | httpError (status : Nat) : FetchResult
  | noRates : FetchResult
  | ok (cad eur uah rub : Option ℚ) : FetchResult
deriving DecidableEq, Repr

/-- Per-currency merge step of `loadExchangeRates`: the JavaScript guard
`if (rates.X) { customRates.X = rates.X }` overwrites the stored rate only when
the fetched property is present and truthy (zero, the only falsy rational, is
skipped like an absent property). -/
def mergeRate (current : ℚ) (fetched : Option ℚ) : ℚ :=
  match fetched with
  | some v => if v ≠ 0 then v else current
  | none => current

/-- State transition of `loadExchangeRates` (part_004 lines 640-703) on the
global `customRates`: every failure reaches the `catch` block, which leaves the
table alone; a successful parse sets `customRates.USD = 1` and then performs
the guarded per-currency assignments for CAD, EUR, UAH and RUB in sequence,
which (the fields being independent) equals the record built here. -/
def loadExchangeRates (r : Rates) (f : FetchResult) : Rates :=
  match f with
  | .networkError => r
  | .httpError _ => r
  | .noRates => r
  | .ok cad eur uah rub =>
    { usd := 1
      cad := mergeRate r.cad cad
      eur := mergeRate r.eur eur
      uah := mergeRate r.uah uah
      rub := mergeRate r.rub rub }

/-- State transition of `updateCustomRate` (part_004 lines 1287-1302). `value`
is the `parseFloat` result, `none` when it is `NaN` (early return). -/
def updateCustomRate (r : Rates) (fromCurrency toCurrency : String)
    (value : Option ℚ) : Rates :=
  match value with
  | none => r
  | some rate =>
    if fromCurrency == "CAD" && toCurrency == "USD" then { r with cad := rate }
    else if fromCurrency == "USD" && toCurrency == "EUR" then { r with eur := rate }
    else if fromCurrency == "USD" && toCurrency == "UAH" then { r with uah := rate }
    else if fromCurrency == "USD" && toCurrency == "RUB" then { r with rub := rate }
    else r

/-- Currency symbol selection of `getCurrencySymbol` (part_004 lines 1355-1364). -/
def getCurrencySymbol (currency : String) : String :=
  if currency == "UAH" then "₴"
  else if currency == "EUR" then "€"
  else "$"

/-- What a converter writes into its result element: either a literal message
(invalid amount, rate not found) or a currency-symbol-prefixed numeric value
(rounded to two decimals only at display time). -/
inductive ConvOutcome where
  | message (text : String) : ConvOutcome
  | display (symbol : String) (value : ℚ) : ConvOutcome
deriving DecidableEq, Repr

/-- Conversion logic of `convertCurrencyAmount` (part_004 lines 1305-1352),
with the DOM reads factored into parameters. `amount` is the parsed amount;
the JavaScript rejection `isNaN(amount) || amount <= 0` is modelled by the
rational test `amount <= 0` (no NaN exists in this model). The currency checks
mirror `!customRates[from] || !customRates[to]`: a missing or zero (falsy)
rate yields the rate-not-found message. With both rates nonzero the pivot
`amount / rate[from] * rate[to]` is finite, so the final `isNaN` guard never
fires. -/
def convertCurrencyAmount (rates : List (String × ℚ)) (amount : ℚ)
    (fromCurrency toCurrency : String) : ConvOutcome :=
  if amount ≤ 0 then .message "invalid amount"
  else if fromCurrency = toCurrency then
    .display (getCurrencySymbol toCurrency) amount
  else
    match jsLookup fromCurrency rates, jsLookup toCurrency rates with
    | some rf, some rt =>
      if rf = 0 ∨ rt = 0 then .message "rate not found"
      else .display (getCurrencySymbol toCurrency) (amount / rf * rt)
    | _, _ => .message "rate not found"

/-- Conversion logic of `convertCurrencyAmount` in plaid_app.js (lines
355-381): no positivity check (`parseFloat(...) || 0` coerces an unparsable
amount to zero), a fixed dollar symbol, and the pivot computed as
`(amount * customRates[to]) / customRates[from]` behind the truthiness guard
`customRates[from] && customRates[to]`. -/
def plaidConvertCurrencyAmount (rates : List (String × ℚ)) (amount : ℚ)
    (fromC toC : String) : ConvOutcome :=
  if fromC = toC then .display "$" amount
  else
    match jsLookup fromC rates, jsLookup toC rates with
    | some rf, some rt =>
      if rf = 0 ∨ rt = 0 then .message "rate not found"
      else .display "$" (amount * rt / rf)
    | _, _ => .message "rate not found"

/-- What `updateCurrencyPair` (part_004 lines 1367-1406) writes into its rate
element: the literal string `1.0000` for an equal pair, `N/A` when a rate is
missing or falsy, and otherwise the cross rate `1 / rate[from] * rate[to]`
(shown to four decimals). -/
inductive PairOutcome where
  | one : PairOutcome
  | na : PairOutcome
  | computed (value : ℚ) : PairOutcome
deriving DecidableEq, Repr

/-- Rate-display logic of `updateCurrencyPair` (part_004 lines 1367-1406),
with the two select-element reads factored into parameters. -/
def updateCurrencyPair (rates : List (String × ℚ))
    (fromCurrency toCurrency : String) : PairOutcome :=
  if fromCurrency = toCurrency then .one
  else
    match jsLookup fromCurrency rates, jsLookup toCurrency rates with
    | some rf, some rt =>
      if rf = 0 ∨ rt = 0 then .na
      else .computed (1 / rf * rt)
    | _, _ => .na

/-- Strict positivity of every stored rate (the invariant of the RateTable
section of the specification). -/
def allRatesPositive (r : Rates) : Prop :=
  0 < r.usd ∧ 0 < r.cad ∧ 0 < r.eur ∧ 0 < r.uah ∧ 0 < r.rub

instance (r : Rates) : Decidable (allRatesPositive r) := by
  unfold allRatesPositive
  infer_instance

/-! ### Helper lemmas -/

/-- A string is a prefix of itself under the JavaScript prefix test. -/
theorem jsStartsWith_self (s : String) : jsStartsWith s s = true := by
  simp [jsStartsWith]

/-- The constructor's base-path detection can only yield the hardcoded GitHub
Pages prefix or the empty string. -/
theorem detectBasePath_eq (pathname : String) :
    detectBasePath pathname = "/budget-manager-cloud" ∨ detectBasePath pathname = "" := by
  unfold detectBasePath
  split
  · exact Or.inl rfl
  · exact Or.inr rfl

/-- The fallback loop returns nothing when no registered route is a prefix of
the path. -/
theorem routeLoop_eq_none (path : String) (rs : List (String × String))
    (h : ∀ rt ∈ rs, jsStartsWith path rt.1 = false) : routeLoop path rs = none := by
  induction rs with
  | nil => rfl
  | cons a rest ih =>
    obtain ⟨route, tab⟩ := a
    simp only [routeLoop]
    rw [h ⟨route, tab⟩ (List.mem_cons_self _ _)]
    simp only [Bool.false_eq_true, if_false]
    exact ih (fun rt hrt => h rt (List.mem_cons_of_mem _ hrt))

/-- Exact lookup misses when no registered route is a prefix of the path (an
exact hit would make the path a prefix of itself). -/
theorem jsLookup_eq_none_of_no_matching_route (path : String)
    (rs : List (String × String))
    (h : ∀ rt ∈ rs, jsStartsWith path rt.1 = false) :
    jsLookup path rs = none := by
  induction rs with
  | nil => rfl
  | cons a rest ih =>
    obtain ⟨route, tab⟩ := a
    simp only [jsLookup]
    have hne : path ≠ route := by
      intro hcontra
      have := h ⟨route, tab⟩ (List.mem_cons_self _ _)
      rw [← hcontra, jsStartsWith_self] at this
      simp at this
    rw [if_neg hne]
    exact ih (fun rt hrt => h rt (List.mem_cons_of_mem _ hrt))

/-- Route resolution always lands in the registered view set extended with the
default view (which is itself registered): the four known tab names. -/
theorem handleRouteResolve_mem (bp path : String) :
    handleRouteResolve (routes bp) path ∈
      (["dashboard", "banks", "transactions", "advisor"] : List String) := by
  unfold handleRouteResolve
  cases hlook : jsLookup path (routes bp) with
  | some tab =>
    simp only [hlook]
    simp only [routes, jsLookup] at hlook
    repeat' split at hlook
    all_goals simp_all
  | none =>
    simp only [hlook]
    cases hloop : routeLoop path (routes bp) with
    | some tab =>
      simp only [hloop]
      simp only [routes, routeLoop] at hloop
      repeat' split at hloop
      all_goals simp_all
    | none => simp [hloop]

/-! ### Claim C1: is the rate refresh all-or-nothing? -/

/-- C1 counterexample: a successful fetch whose `rates` object carries only a
CAD value (the expected codes EUR, UAH, RUB missing from the response) still
overwrites CAD while retaining the other entries unchanged — the refresh
merges per currency instead of replacing the whole table, and a response with
missing expected currency codes does not leave the table untouched. -/
theorem loadExchangeRates_partial_merge :
    loadExchangeRates initialCustomRates (.ok (some 2) none none none) =
      { usd := 1, cad := 2, eur := 0.85, uah := 41.0, rub := 83.0 } ∧
    loadExchangeRates initialCustomRates (.ok (some 2) none none none) ≠
      initialCustomRates := by
  constructor
  · norm_num [loadExchangeRates, initialCustomRates, mergeRate]
  · norm_num [loadExchangeRates, initialCustomRates, mergeRate, Rates.mk.injEq]

/-- C1 amended: on every fetch failure (network error, non-ok HTTP status, or
a response without a `rates` object) `loadExchangeRates` leaves the table
exactly as it was, so a subsequent conversion uses the same rates as before
the failed refresh; a successful fetch, however, merges per currency: USD is
set to 1, each expected code is overwritten only when present (and truthy) in
the response, and absent codes keep their previous value — a missing expected
currency code is not treated as a failure. -/
theorem loadExchangeRates_failure_keeps_table (r : Rates) :
    loadExchangeRates r .networkError = r ∧
    (∀ s, loadExchangeRates r (.httpError s) = r) ∧
    loadExchangeRates r .noRates = r ∧
    (∀ amount fromCurrency toCurrency,
      convertCurrencyAmount (ratesTable (loadExchangeRates r .networkError))
          amount fromCurrency toCurrency =
        convertCurrencyAmount (ratesTable r) amount fromCurrency toCurrency) ∧
    (∀ eur uah rub, (loadExchangeRates r (.ok none eur uah rub)).cad = r.cad) ∧
    (∀ v eur uah rub, v ≠ 0 →
      (loadExchangeRates r (.ok (some v) eur uah rub)).cad = v) ∧
    (∀ cad eur uah rub, (loadExchangeRates r (.ok cad eur uah rub)).usd = 1) := by
  refine ⟨rfl, fun _ => rfl, rfl, fun _ _ _ => rfl, fun _ _ _ => rfl, ?_,
    fun _ _ _ _ => rfl⟩
  intro v eur uah rub hv
  simp [loadExchangeRates, mergeRate, hv]

/-- C1 witness: the amended statement evaluated at the initial table, for a
response carrying CAD = 2 and for a network failure. -/
theorem loadExchangeRates_failure_keeps_table_witness :
    (loadExchangeRates initialCustomRates (.ok (some 2) none none none)).cad = 2 ∧
    loadExchangeRates initialCustomRates .networkError = initialCustomRates :=
  ⟨(loadExchangeRates_failure_keeps_table initialCustomRates).2.2.2.2.2.1
      2 none none none (by norm_num),
   (loadExchangeRates_failure_keeps_table initialCustomRates).1⟩

/-! ### Claim C2: does back/forward handling push history entries? -/

/-- C2 counterexample: handling the path `/banks` — exactly what the popstate
listener does after a browser back/forward event — activates the banks view
through `showTab`, which calls `router.navigateToTab`, which calls
`history.pushState` with `/banks`: the activation does push a new history
entry. -/
theorem handleRoute_pushes_history :
    handleRouteEffect viewPanelIds true "" "/banks" = Except.ok (some "/banks") ∧
    (some "/banks" : Option String) ≠ none :=
  ⟨rfl, by decide⟩

/-- C2 amended: handling a history navigation pushes a new history entry
whenever the resolved view is not the default `dashboard` (the push happens in
`showTab`, which calls `router.navigateToTab` for every non-dashboard tab);
only a path resolving to `dashboard` is activated without any push. -/
theorem handleRoute_push_iff_not_dashboard (bp path : String) :
    (handleRouteResolve (routes bp) path = "dashboard" →
      handleRouteEffect viewPanelIds true bp path = Except.ok none) ∧
    (handleRouteResolve (routes bp) path ≠ "dashboard" →
      ∃ p, handleRouteEffect viewPanelIds true bp path = Except.ok (some p)) := by
  have hmem := handleRouteResolve_mem bp path
  constructor
  · intro hd
    unfold handleRouteEffect
    rw [hd]
    rfl
  · intro hnd
    unfold handleRouteEffect
    simp only [List.mem_cons, List.not_mem_nil, or_false] at hmem
    rcases hmem with h | h | h | h
    · exact absurd h hnd
    · rw [h]; exact ⟨bp ++ "/banks", rfl⟩
    · rw [h]; exact ⟨bp ++ "/transactions", rfl⟩
    · rw [h]; exact ⟨bp ++ "/advisor", rfl⟩

/-- C2 witness: the amended theorem applied at the root deployment and the home
path, which resolves to dashboard and is activated without a push. -/
theorem handleRoute_push_iff_not_dashboard_witness :
    handleRouteResolve (routes "") "/" = "dashboard" ∧
    handleRouteEffect viewPanelIds true "" "/" = Except.ok none :=
  ⟨by decide, (handleRoute_push_iff_not_dashboard "" "/").1 (by decide)⟩

/-! ### Claim C3: is the fallback a longest-prefix match? -/

/-- C3 counterexample: for the path `/banks/extra` at the root deployment the
longest matching registered prefix is `/banks`, so the claimed resolution is
the banks view; the code, however, takes the first registered route in
insertion order whose prefix test succeeds — the root route `/` — and
resolves to `dashboard`. -/
theorem handleRoute_not_longest_prefix :
    handleRouteResolve (routes "") "/banks/extra" = "dashboard" ∧
    longestPrefixResolve (routes "") "/banks/extra" = "banks" ∧
    ("dashboard" : String) ≠ "banks" :=
  ⟨by decide, by decide, by decide⟩

/-- C3 amended: resolution selects the view by exact match against the
registered routes first, otherwise by the FIRST registered route in insertion
order of which the path is an extension — in particular every non-exact path
starting with the root route resolves to `dashboard` — otherwise the default
`dashboard`; it never throws and always yields one of the four known views. -/
theorem handleRoute_first_match_resolution (bp path : String) :
    (∀ tab, jsLookup path (routes bp) = some tab →
      handleRouteResolve (routes bp) path = tab) ∧
    (jsLookup path (routes bp) = none → jsStartsWith path (bp ++ "/") = true →
      handleRouteResolve (routes bp) path = "dashboard") ∧
    ((∀ rt ∈ routes bp, jsStartsWith path rt.1 = false) →
      handleRouteResolve (routes bp) path = "dashboard") ∧
    handleRouteResolve (routes bp) path ∈
      (["dashboard", "banks", "transactions", "advisor"] : List String) := by
  refine ⟨?_, ?_, ?_, handleRouteResolve_mem bp path⟩
  · intro tab h
    unfold handleRouteResolve
    rw [h]
  · intro hnone hsw
    unfold handleRouteResolve
    rw [hnone]
    simp only [routes, routeLoop, hsw, if_true]
  · intro hall
    unfold handleRouteResolve
    rw [jsLookup_eq_none_of_no_matching_route path (routes bp) hall,
      routeLoop_eq_none path (routes bp) hall]

/-- C3 witness: the amended theorem applied to an exact route, to a non-exact
path under the root route, and to a string matching nothing. -/
theorem handleRoute_first_match_resolution_witness :
    handleRouteResolve (routes "") "/transactions" = "transactions" ∧
    handleRouteResolve (routes "") "/banks/extra" = "dashboard" ∧
    handleRouteResolve (routes "") "no-slash" = "dashboard" :=
  ⟨(handleRoute_first_match_resolution "" "/transactions").1 "transactions" (by decide),
   (handleRoute_first_match_resolution "" "/banks/extra").2.1 (by decide) (by decide),
   (handleRoute_first_match_resolution "" "no-slash").2.2.1 (by decide)⟩

/-! ### Claim C4: does showTab fall back to the default view? -/

/-- C4 counterexample: `showTab` with a view identifier having no panel
element dereferences the `null` result of `document.getElementById` and
throws a TypeError; it does not fall back to activating the default view. -/
theorem showTab_unknown_view_throws :
    showTab viewPanelIds true "" "bogus" =
      Except.error "TypeError: cannot read classList of null" := rfl

/-- C4 amended: `showTab` never throws when the target view has a panel
element in the document; given an identifier with no corresponding panel it
throws the TypeError instead of falling back to the default view. -/
theorem showTab_no_throw_iff_panel_exists (domIds : List String)
    (routerDefined : Bool) (bp tabName : String) :
    (tabName ∈ domIds →
      ∃ push, showTab domIds routerDefined bp tabName = Except.ok push) ∧
    (tabName ∉ domIds →
      showTab domIds routerDefined bp tabName =
        Except.error "TypeError: cannot read classList of null") := by
  constructor
  · intro hmem
    have hc : domIds.contains tabName = true := by
      simp [List.contains, hmem]
    refine ⟨if routerDefined && (tabName != "dashboard") then
      navigateToTabPush bp tabName else none, ?_⟩
    unfold showTab
    rw [if_pos hc]
    split <;> rfl
  · intro hnot
    have hc : domIds.contains tabName = false := by
      simp [List.contains, hnot]
    unfold showTab
    rw [hc]
    simp

/-- C4 witness: the amended theorem applied to the dashboard view, whose panel
exists, and to an identifier with no panel. -/
theorem showTab_no_throw_iff_panel_exists_witness :
    (∃ push, showTab viewPanelIds true "" "dashboard" = Except.ok push) ∧
    showTab viewPanelIds true "" "bogus2" =
      Except.error "TypeError: cannot read classList of null" :=
  ⟨(showTab_no_throw_iff_panel_exists viewPanelIds true "" "dashboard").1 (by decide),
   (showTab_no_throw_iff_panel_exists viewPanelIds true "" "bogus2").2 (by decide)⟩

/-! ### Claim C5: is equal-currency conversion the identity for every amount? -/

/-- C5 counterexample: in the part_004 converter a zero amount is rejected as
an invalid amount before the equal-currency branch is reached — converting 0
from USD to USD displays the invalid-amount message, not the amount. -/
theorem convert_zero_amount_not_identity :
    convertCurrencyAmount (ratesTable initialCustomRates) 0 "USD" "USD" =
      ConvOutcome.message "invalid amount" ∧
    ConvOutcome.message "invalid amount" ≠
      ConvOutcome.display (getCurrencySymbol "USD") 0 := by
  constructor
  · norm_num [convertCurrencyAmount]
  · simp

/-- C5 amended: converting from a currency to itself is the exact identity for
every strictly positive amount in the part_004 converter, which however
rejects zero and negative amounts with the invalid-amount message before the
equal-currency branch; the plaid_app.js converter returns the amount
unchanged for every amount, including zero and negative ones. -/
theorem convert_same_currency_identity (rates : List (String × ℚ))
    (x : String) (amount : ℚ) :
    (0 < amount →
      convertCurrencyAmount rates amount x x =
        ConvOutcome.display (getCurrencySymbol x) amount) ∧
    (amount ≤ 0 →
      convertCurrencyAmount rates amount x x =
        ConvOutcome.message "invalid amount") ∧
    plaidConvertCurrencyAmount rates amount x x = ConvOutcome.display "$" amount := by
  refine ⟨?_, ?_, ?_⟩
  · intro h
    unfold convertCurrencyAmount
    rw [if_neg (not_le.mpr h), if_pos rfl]
  · intro h
    unfold convertCurrencyAmount
    rw [if_pos h]
  · unfold plaidConvertCurrencyAmount
    rw [if_pos rfl]

/-- C5 witness: the amended theorem applied to a currency absent from an empty
table, at a positive, a negative and a zero-free plaid amount. -/
theorem convert_same_currency_identity_witness :
    convertCurrencyAmount [] 7 "ZZZ" "ZZZ" = ConvOutcome.display "$" 7 ∧
    convertCurrencyAmount [] (-3) "ZZZ" "ZZZ" = ConvOutcome.message "invalid amount" ∧
    plaidConvertCurrencyAmount [] 0 "ZZZ" "ZZZ" = ConvOutcome.display "$" 0 :=
  ⟨(convert_same_currency_identity [] "ZZZ" 7).1 (by norm_num),
   (convert_same_currency_identity [] "ZZZ" (-3)).2.1 (by norm_num),
   (convert_same_currency_identity [] "ZZZ" 0).2.2⟩

/-! ### Claim C6: the pivot formula -/

/-- C6 counterexample: with both currencies present at nonzero rates, the
part_004 converter does not apply the pivot formula to a negative amount — it
rejects it before any arithmetic — so the formula does not hold for every
amount as claimed. -/
theorem convert_negative_amount_no_formula :
    convertCurrencyAmount [("USD", 1), ("CAD", (1.35 : ℚ))] (-10) "USD" "CAD" =
      ConvOutcome.message "invalid amount" ∧
    ConvOutcome.message "invalid amount" ≠
      ConvOutcome.display (getCurrencySymbol "CAD") ((-10 : ℚ) / 1 * 1.35) := by
  constructor
  · norm_num [convertCurrencyAmount]
  · simp

/-- C6 amended: for every strictly positive amount and pair of distinct
currencies present with nonzero rates, the part_004 converter computes
`amount / rate[from] * rate[to]` (pivoting through the USD base), and the
plaid_app.js converter computes the same pivot (as
`amount * rate[to] / rate[from]`) for every amount; with the table
USD = 1, CAD = 1.35, converting 100 USD to CAD yields 135.00 and 135 CAD to
USD yields 100.00. -/
theorem convert_pivot_formula :
    (∀ (rates : List (String × ℚ)) (amount : ℚ)
        (fromCurrency toCurrency : String) (rf rt : ℚ),
      0 < amount → fromCurrency ≠ toCurrency →
      jsLookup fromCurrency rates = some rf → rf ≠ 0 →
      jsLookup toCurrency rates = some rt → rt ≠ 0 →
      convertCurrencyAmount rates amount fromCurrency toCurrency =
        ConvOutcome.display (getCurrencySymbol toCurrency) (amount / rf * rt)) ∧
    (∀ (rates : List (String × ℚ)) (amount : ℚ) (fromC toC : String) (rf rt : ℚ),
      fromC ≠ toC →
      jsLookup fromC rates = some rf → rf ≠ 0 →
      jsLookup toC rates = some rt → rt ≠ 0 →
      plaidConvertCurrencyAmount rates amount fromC toC =
        ConvOutcome.display "$" (amount * rt / rf)) ∧
    convertCurrencyAmount [("USD", 1), ("CAD", (1.35 : ℚ))] 100 "USD" "CAD" =
      ConvOutcome.display "$" 135 ∧
    convertCurrencyAmount [("USD", 1), ("CAD", (1.35 : ℚ))] 135 "CAD" "USD" =
      ConvOutcome.display "$" 100 := by
  refine ⟨?_, ?_, ?_, ?_⟩
  · intro rates amount fromCurrency toCurrency rf rt hpos hne hf hrf ht hrt
    unfold convertCurrencyAmount
    rw [if_neg (not_le.mpr hpos), if_neg hne]
    simp only [hf, ht]
    rw [if_neg (not_or.mpr ⟨hrf, hrt⟩)]
  · intro rates amount fromC toC rf rt hne hf hrf ht hrt
    unfold plaidConvertCurrencyAmount
    rw [if_neg hne]
    simp only [hf, ht]
    rw [if_neg (not_or.mpr ⟨hrf, hrt⟩)]
  · simp [convertCurrencyAmount, getCurrencySymbol, jsLookup]
    norm_num
  · simp [convertCurrencyAmount, getCurrencySymbol, jsLookup]
    norm_num

/-- C6 witness: the pivot formula applied at the concrete table of the claim. -/
theorem convert_pivot_formula_witness :
    convertCurrencyAmount [("USD", 1), ("CAD", (1.35 : ℚ))] 100 "USD" "CAD" =
      ConvOutcome.display (getCurrencySymbol "CAD") (100 / 1 * (1.35 : ℚ)) :=
  convert_pivot_formula.1 [("USD", 1), ("CAD", (1.35 : ℚ))] 100 "USD" "CAD" 1 1.35
    (by norm_num) (by decide) rfl (by norm_num) rfl (by norm_num)

/-! ### Claim C7: positivity and base-rate invariant of the rate table -/

/-- C7 counterexample: starting from the all-positive initial table,
`updateCustomRate` with the parsed value -5 for the CAD/USD pair stores a
negative CAD rate — the strict-positivity invariant is not preserved by every
operation that touches the table. -/
theorem updateCustomRate_breaks_positivity :
    allRatesPositive initialCustomRates ∧
    updateCustomRate initialCustomRates "CAD" "USD" (some (-5)) =
      { usd := 1, cad := -5, eur := 0.85, uah := 41.0, rub := 83.0 } ∧
    ¬ allRatesPositive (updateCustomRate initialCustomRates "CAD" "USD" (some (-5))) := by
  refine ⟨by norm_num [allRatesPositive, initialCustomRates], ?_, ?_⟩
  · norm_num [updateCustomRate, initialCustomRates]
  · norm_num [allRatesPositive, updateCustomRate, initialCustomRates]

/-- C7 amended: the USD base rate is exactly 1 initially and is preserved by
every operation — `updateCustomRate` never writes it and `loadExchangeRates`
either keeps the table or resets USD to 1 — and the initial table is strictly
positive; strict positivity of the other entries, however, is not enforced by
the update operations, which store any parsed (or fetched truthy) value. -/
theorem usd_base_rate_invariant :
    (initialCustomRates.usd = 1 ∧ allRatesPositive initialCustomRates) ∧
    (∀ r fromCurrency toCurrency value, r.usd = 1 →
      (updateCustomRate r fromCurrency toCurrency value).usd = 1) ∧
    (∀ r f, r.usd = 1 → (loadExchangeRates r f).usd = 1) := by
  refine ⟨⟨rfl, by norm_num [allRatesPositive, initialCustomRates]⟩, ?_, ?_⟩
  · intro r fromCurrency toCurrency value h
    unfold updateCustomRate
    cases value with
    | none => exact h
    | some rate =>
      repeat' split
      all_goals exact h
  · intro r f h
    cases f <;> first | rfl | exact h

/-- C7 witness: the base-rate preservation applied to a concrete custom-rate
update and a concrete successful fetch. -/
theorem usd_base_rate_invariant_witness :
    (updateCustomRate initialCustomRates "USD" "EUR" (some 2)).usd = 1 ∧
    (loadExchangeRates initialCustomRates (.ok (some 2) (some 3) none none)).usd = 1 :=
  ⟨usd_base_rate_invariant.2.1 initialCustomRates "USD" "EUR" (some 2) rfl,
   usd_base_rate_invariant.2.2 initialCustomRates (.ok (some 2) (some 3) none none) rfl⟩

/-! ### Claim C8: does the router support arbitrary deployment subpaths? -/

/-- C8 counterexample: for an instance deployed under the subpath `/app`, a
deep link to its banks page has pathname `/app/banks`; the startup base-path
detection — which recognises only the hardcoded `/budget-manager-cloud/` —
yields the empty base path there, and the path resolves to `dashboard`
instead of `banks`: the router does not operate correctly under an arbitrary
deployment subpath. -/
theorem router_fails_under_other_subpath :
    detectBasePath "/app/banks" = "" ∧
    handleRouteResolve (routes (detectBasePath "/app/banks")) "/app/banks" =
      "dashboard" ∧
    ("dashboard" : String) ≠ "banks" :=
  ⟨by decide, by decide, by decide⟩

/-- C8 amended: the base path is not detected generically — the constructor
recognises only the hardcoded GitHub Pages subpath `/budget-manager-cloud`,
mapping every other location (including any other subpath such as `/app`) to
the empty base path, so the router works at the domain root and under that
one subpath only. The claim's concrete examples do hold, but only because the
detected base path under `/app` is empty: `/banks` resolves to `banks` and
`/app/unknown` to `dashboard` against the root route table. -/
theorem basePath_detection_hardcoded :
    (∀ p, detectBasePath p = "/budget-manager-cloud" ∨ detectBasePath p = "") ∧
    (∀ p, jsIncludes p "/budget-manager-cloud/" = true →
      detectBasePath p = "/budget-manager-cloud") ∧
    handleRouteResolve (routes "/budget-manager-cloud")
      "/budget-manager-cloud/banks" = "banks" ∧
    handleRouteResolve (routes (detectBasePath "/app/unknown")) "/banks" = "banks" ∧
    handleRouteResolve (routes (detectBasePath "/app/unknown")) "/app/unknown" =
      "dashboard" := by
  refine ⟨detectBasePath_eq, ?_, by decide, by decide, by decide⟩
  intro p h
  unfold detectBasePath
  rw [if_pos h]

/-- C8 witness: the detection conjunct applied at a GitHub Pages pathname. -/
theorem basePath_detection_hardcoded_witness :
    detectBasePath "/budget-manager-cloud/transactions" = "/budget-manager-cloud" :=
  basePath_detection_hardcoded.2.1 "/budget-manager-cloud/transactions" (by decide)

/-! ### Claim C9: path-view-path round trip -/

/-- C9: for every startup pathname and every route registered in the resulting
route table, resolving the route's path yields its view, and mapping that view
back through navigateToTab's route map yields the original path. -/
theorem routes_roundtrip (startPath p v : String)
    (h : (p, v) ∈ routes (detectBasePath startPath)) :
    handleRouteResolve (routes (detectBasePath startPath)) p = v ∧
    navigateToTabPush (detectBasePath startPath) v = some p := by
  rcases detectBasePath_eq startPath with hb | hb <;> rw [hb] at h ⊢ <;>
    simp only [routes, List.mem_cons, List.not_mem_nil, or_false,
      Prod.mk.injEq] at h <;>
    rcases h with ⟨rfl, rfl⟩ | ⟨rfl, rfl⟩ | ⟨rfl, rfl⟩ | ⟨rfl, rfl⟩ <;>
    exact ⟨by decide, by decide⟩

/-- C9 witness: the round trip at the banks route of a root deployment. -/
theorem routes_roundtrip_witness :
    ("/banks", "banks") ∈ routes (detectBasePath "/banks") ∧
    handleRouteResolve (routes (detectBasePath "/banks")) "/banks" = "banks" ∧
    navigateToTabPush (detectBasePath "/banks") "banks" = some "/banks" :=
  ⟨by decide, (routes_roundtrip "/banks" "/banks" "banks" (by decide)).1,
   (routes_roundtrip "/banks" "/banks" "banks" (by decide)).2⟩

/-! ### Claim C10: equal-currency short-circuit before the rate table -/

/-- C10: the equal-currency branch short-circuits before the rate table is
consulted: for any table — even one missing the currency entirely or holding
a zero or negative rate — converting with equal currencies yields the
identity display (for valid positive amounts in the part_004 converter, for
every amount in the plaid_app.js converter) and never the rate-not-found
sentinel, and `updateCurrencyPair` with an equal pair shows the literal rate
1.0000, never N/A. -/
theorem equal_currency_short_circuit (rates : List (String × ℚ)) (x : String) :
    (∀ amount : ℚ, 0 < amount →
      convertCurrencyAmount rates amount x x =
        ConvOutcome.display (getCurrencySymbol x) amount) ∧
    (∀ amount : ℚ,
      convertCurrencyAmount rates amount x x ≠
        ConvOutcome.message "rate not found") ∧
    (∀ amount : ℚ,
      plaidConvertCurrencyAmount rates amount x x = ConvOutcome.display "$" amount) ∧
    updateCurrencyPair rates x x = PairOutcome.one := by
  refine ⟨?_, ?_, ?_, ?_⟩
  · intro amount h
    unfold convertCurrencyAmount
    rw [if_neg (not_le.mpr h), if_pos rfl]
  · intro amount
    unfold convertCurrencyAmount
    by_cases h : amount ≤ 0
    · rw [if_pos h]
      simp
    · rw [if_neg h, if_pos rfl]
      simp
  · intro amount
    unfold plaidConvertCurrencyAmount
    rw [if_pos rfl]
  · unfold updateCurrencyPair
    rw [if_pos rfl]

/-- C10 witness: the short-circuit applied to a currency with no entry in an
empty rate table. -/
theorem equal_currency_short_circuit_witness :
    convertCurrencyAmount [] 5 "XYZ" "XYZ" =
      ConvOutcome.display (getCurrencySymbol "XYZ") 5 ∧
    updateCurrencyPair [] "XYZ" "XYZ" = PairOutcome.one :=
  ⟨(equal_currency_short_circuit [] "XYZ").1 5 (by norm_num),
   (equal_currency_short_circuit [] "XYZ").2.2.2⟩

end BudgetManager
